import Mathlib

set_option maxHeartbeats 1000000

namespace AppIcons

/-!
Shallow embedding of the icon generator script of this repository
(src/generate_app_icons.py).  Images are modelled as a mode tag, pixel
dimensions and a pixel map; the imaging-library primitives used by the
script (convert, resize, new, paste-with-mask, PNG encoding) are modelled
as deterministic pure functions faithful to the library contract the
script relies on: convert returns an image in the requested mode, resize
returns an image of the requested dimensions in the same mode (resampling
is abstracted as coordinate sampling; the development depends only on
mode, dimensions, determinism and the endpoints of alpha blending), paste
with an alpha mask blends the pasted pixel with the background pixel
linearly by mask over 255, and PNG encoding is a deterministic injection
of the image value.  The filesystem is an association list of files plus
a list of directories; failures of the fallible operations of the script
(directory creation, source decode, file writes) are decided by an
environment record.  Printing to standard output is not modelled.
-/

inductive Mode where
  | RGB
  | RGBA
  | L
  | P
deriving DecidableEq

structure Pix where
  r : Nat
  g : Nat
  b : Nat
  a : Nat
deriving DecidableEq

structure Image where
  mode : Mode
  width : Nat
  height : Nat
  px : Nat → Nat → Pix

/-- Model of PIL Image.convert (line 39 of the script): the result
carries the requested mode; a pixel of an image that had an alpha channel
is kept, any other pixel gets alpha 255. -/
def Image.convert (img : Image) (m : Mode) : Image :=
  { mode := m, width := img.width, height := img.height,
    px := fun x y =>
      match img.mode with
      | Mode.RGBA => img.px x y
      | _ => { img.px x y with a := 255 } }

/-- Model of PIL Image.resize with the LANCZOS filter (line 47):
deterministic, returns an image of the requested dimensions in the same
mode; the resampling arithmetic is abstracted as coordinate sampling. -/
def Image.resize (img : Image) (w h : Nat) : Image :=
  { mode := img.mode, width := w, height := h,
    px := fun x y => img.px (x * img.width / w) (y * img.height / h) }

/-- Model of PIL Image.new in mode RGB with a constant fill colour
(line 52). -/
def Image.newRGB (w h : Nat) (r g b : Nat) : Image :=
  { mode := Mode.RGB, width := w, height := h, px := fun _ _ => ⟨r, g, b, 255⟩ }

/-- Linear alpha blending of one channel: mask 0 keeps the background
channel, mask 255 takes the pasted channel. -/
def blend (bg fg m : Nat) : Nat := (fg * m + bg * (255 - m)) / 255

/-- Model of background.paste(resized, mask) (line 53): per-pixel blend
of the pasted image over the background by the mask; the result keeps the
background's mode and dimensions and is opaque. -/
def Image.pasteMask (bg fg : Image) (mask : Nat → Nat → Nat) : Image :=
  { mode := bg.mode, width := bg.width, height := bg.height,
    px := fun x y =>
      ⟨blend (bg.px x y).r (fg.px x y).r (mask x y),
       blend (bg.px x y).g (fg.px x y).g (mask x y),
       blend (bg.px x y).b (fg.px x y).b (mask x y), 255⟩ }

structure ManifestEntry where
  filename : String
  idiom : String
  scale : String
  size : String
deriving DecidableEq

structure ManifestInfo where
  author : String
  version : Nat
deriving DecidableEq

structure Manifest where
  images : List ManifestEntry
  info : ManifestInfo
deriving DecidableEq

/-- Content of a file: a PNG-encoded image (PNG encoding at maximum
quality is deterministic, so it is modelled as the image value itself),
the serialized manifest (serialization to indented JSON is deterministic,
so it is modelled as the manifest value itself), or arbitrary
pre-existing bytes. -/
inductive FileData where
  | png (img : Image)
  | json (m : Manifest)
  | raw (s : String)

/-- Filesystem state: existing directories and a path-indexed store of
files.  Writing prepends, reading takes the first match, so the newest
write wins. -/
structure FS where
  dirs : List String
  files : List (String × FileData)

/-- Model of open(path, w)/save: overwrite or create the file. -/
def FS.setFile (fs : FS) (p : String) (d : FileData) : FS :=
  ⟨fs.dirs, (p, d) :: fs.files⟩

/-- Content of the file at a path, if any. -/
def FS.getFile (fs : FS) (p : String) : Option FileData :=
  fs.files.lookup p

/-- Model of os.makedirs(d, exist_ok set) (line 32): create the directory
if absent, no error if present. -/
def FS.makedirs (fs : FS) (d : String) : FS :=
  ⟨if d ∈ fs.dirs then fs.dirs else d :: fs.dirs, fs.files⟩

/-- Environment deciding which fallible operations of a run raise:
directory creation (line 32), Image.open of the source path (line 38,
none models a missing, unreadable or undecodable source), and each file
write (lines 58 and 88, modelling write-permission or disk failures). -/
structure Env where
  makedirsFails : Bool
  openResult : Option Image
  writeFails : String → Bool

/-- Result of a run: a returned boolean, or an uncaught exception. -/
inductive Outcome where
  | ok (b : Bool)
  | raised
deriving DecidableEq

/-- Source image path hard-coded at line 9 of the script. -/
def source_path : String :=
  "/Users/aadi/Desktop/FlexaSwiftUI/ChatGPT Image Sep 1, 2025, 11_37_08 PM.png"

/-- Destination directory hard-coded at line 12 of the script. -/
def dest_dir : String :=
  "/Users/aadi/Desktop/FlexaSwiftUI/FlexaSwiftUI/Assets.xcassets/AppIcon.appiconset"

/-- The fixed icon table of lines 15 to 29 of the script. -/
def icon_sizes : List (Nat × String) :=
  [(20, "Icon-20.png"),
   (29, "Icon-29.png"),
   (40, "Icon-40.png"),
   (58, "Icon-58.png"),
   (60, "Icon-60.png"),
   (76, "Icon-76.png"),
   (80, "Icon-80.png"),
   (87, "Icon-87.png"),
   (120, "Icon-120.png"),
   (152, "Icon-152.png"),
   (167, "Icon-167.png"),
   (180, "Icon-180.png"),
   (1024, "Icon-1024.png")]

/-- The fixed manifest built at lines 62 to 85 of the script. -/
def contents_json : Manifest :=
  { images :=
      [⟨"Icon-40.png", "ipad", "1x", "40x40"⟩,
       ⟨"Icon-80.png", "ipad", "2x", "40x40"⟩,
       ⟨"Icon-60.png", "iphone", "2x", "30x30"⟩,
       ⟨"Icon-120.png", "iphone", "2x", "60x60"⟩,
       ⟨"Icon-180.png", "iphone", "3x", "60x60"⟩,
       ⟨"Icon-58.png", "iphone", "2x", "29x29"⟩,
       ⟨"Icon-87.png", "iphone", "3x", "29x29"⟩,
       ⟨"Icon-80.png", "iphone", "2x", "40x40"⟩,
       ⟨"Icon-120.png", "iphone", "3x", "40x40"⟩,
       ⟨"Icon-20.png", "iphone", "1x", "20x20"⟩,
       ⟨"Icon-40.png", "iphone", "2x", "20x20"⟩,
       ⟨"Icon-60.png", "iphone", "3x", "20x20"⟩,
       ⟨"Icon-76.png", "ipad", "1x", "76x76"⟩,
       ⟨"Icon-152.png", "ipad", "2x", "76x76"⟩,
       ⟨"Icon-167.png", "ipad", "2x", "83.5x83.5"⟩,
       ⟨"Icon-1024.png", "ios-marketing", "1x", "1024x1024"⟩],
    info := ⟨"xcode", 1⟩ }

/-- Path of a generated icon, os.path.join of the destination directory
and the icon filename (line 57). -/
def iconPath (filename : String) : String := dest_dir ++ "/" ++ filename

/-- Path of the manifest file (line 87). -/
def contentsPath : String := dest_dir ++ "/" ++ "Contents.json"

/-- The then-branch of the flattening conditional of lines 50 to 54:
composite the resized image over an opaque white background of the same
dimensions, masked by the last channel (the alpha channel) of the
resized image. -/
def flattenComposite (resized : Image) (size : Nat) : Image :=
  (Image.newRGB size size 255 255 255).pasteMask resized
    (fun x y => (resized.px x y).a)

/-- The flattening conditional of lines 50 to 54: composite over white if
the resized image is in mode RGBA, otherwise use the image as-is. -/
def flattenForSave (resized : Image) (size : Nat) : Image :=
  if resized.mode = Mode.RGBA then flattenComposite resized size else resized

/-- Body of one loop iteration of lines 43 to 58, up to the value that is
saved: resize to size by size, then flatten. -/
def processIcon (img : Image) (size : Nat) : Image :=
  flattenForSave (img.resize size size) size

/-- The write a loop iteration performs: the icon path paired with the
PNG encoding of the processed image. -/
def iconWrite (img : Image) (s : Nat × String) : String × FileData :=
  (iconPath s.2, FileData.png (processIcon img s.1))

/-- The loop of lines 43 to 59, threading the filesystem and the list of
performed writes; a failing save aborts the loop (the exception is caught
at line 94).  Returns whether all writes succeeded, the filesystem, and
the write trace. -/
def writeIcons (env : Env) (img : Image) :
    List (Nat × String) → FS → List String → Bool × FS × List String
  | [], fs, tr => (true, fs, tr)
  | s :: rest, fs, tr =>
    if env.writeFails (iconPath s.2) then (false, fs, tr)
    else
      writeIcons env img rest
        (fs.setFile (iconPath s.2) (FileData.png (processIcon img s.1)))
        (tr ++ [iconPath s.2])

/-- The whole of generate_app_icons (lines 7 to 98).  Directory creation
happens before the try block, so its failure raises; every later failure
is caught and turns into a false return.  The returned triple is the
outcome, the final filesystem, and the ordered trace of file writes. -/
def generate (env : Env) (fs : FS) : Outcome × FS × List String :=
  if env.makedirsFails then (Outcome.raised, fs, [])
  else
    match env.openResult with
    | none => (Outcome.ok false, fs.makedirs dest_dir, [])
    | some source_img =>
      match writeIcons env (source_img.convert Mode.RGBA) icon_sizes
          (fs.makedirs dest_dir) [] with
      | (false, fs2, tr) => (Outcome.ok false, fs2, tr)
      | (true, fs2, tr) =>
        if env.writeFails contentsPath then (Outcome.ok false, fs2, tr)
        else
          (Outcome.ok true,
           fs2.setFile contentsPath (FileData.json contents_json),
           tr ++ [contentsPath])

/-- The 14 paths a run may write: the 13 icon paths and the manifest. -/
def outputPaths : List String :=
  icon_sizes.map (fun s => iconPath s.2) ++ [contentsPath]

/-- Concrete 512 by 512 opaque red source image, used by the witnesses. -/
def redImage : Image :=
  { mode := Mode.RGB, width := 512, height := 512, px := fun _ _ => ⟨255, 0, 0, 255⟩ }

/-- Empty filesystem, used by the witnesses. -/
def fs0 : FS := ⟨[], []⟩

/-- Environment of a fully successful run on the red image. -/
def env0 : Env := ⟨false, some redImage, fun _ => false⟩

/-- Environment where the source image is missing or unreadable. -/
def envNone : Env := ⟨false, none, fun _ => false⟩

/-- Environment where directory creation fails. -/
def envMk : Env := ⟨true, none, fun _ => false⟩

/-- Environment where exactly the save of Icon-40.png fails. -/
def env1 : Env := ⟨false, some redImage, fun p => p == iconPath ("Icon-40.png")⟩

/-- A hit in the front part of an association list is a hit in the whole
list. -/
lemma lookup_append_some {L M : List (String × FileData)} {p : String} {d : FileData}
    (h : List.lookup p L = some d) : List.lookup p (L ++ M) = some d := by
  induction L with
  | nil => simp [List.lookup] at h
  | cons a l ih =>
    rcases a with ⟨k, v⟩
    rw [List.cons_append]
    rw [List.lookup] at h ⊢
    cases hpk : p == k with
    | true => rw [hpk] at h; exact h
    | false => rw [hpk] at h; exact ih h

/-- A miss in the front part of an association list defers to the back
part. -/
lemma lookup_append_none {L M : List (String × FileData)} {p : String}
    (h : List.lookup p L = none) : List.lookup p (L ++ M) = List.lookup p M := by
  induction L with
  | nil => rfl
  | cons a l ih =>
    rcases a with ⟨k, v⟩
    rw [List.cons_append]
    rw [List.lookup] at h ⊢
    cases hpk : p == k with
    | true => rw [hpk] at h; exact absurd h (by simp)
    | false => rw [hpk] at h; exact ih h

/-- Prepending the same association block twice does not change any
lookup. -/
lemma lookup_twice (L M : List (String × FileData)) (p : String) :
    List.lookup p (L ++ (L ++ M)) = List.lookup p (L ++ M) := by
  cases hL : List.lookup p L with
  | some d => rw [lookup_append_some hL, lookup_append_some hL]
  | none => rw [lookup_append_none hL, lookup_append_none hL]

/-- A key absent from the front block of an association list passes
through it. -/
lemma lookup_skip {W : List (String × FileData)} (M : List (String × FileData))
    {p : String} (h : ∀ q ∈ W.map Prod.fst, p ≠ q) :
    List.lookup p (W ++ M) = List.lookup p M := by
  induction W with
  | nil => rfl
  | cons a w ih =>
    have hne : p ≠ a.1 := h a.1 (by simp)
    have hbeq : (p == a.1) = false := beq_eq_false_iff_ne.mpr hne
    rcases a with ⟨k, v⟩
    rw [List.cons_append, List.lookup, hbeq]
    exact ih (fun q hq => h q (by simp [hq]))

/-- makedirs does not touch the file store. -/
lemma makedirs_files (fs : FS) (d : String) : (fs.makedirs d).files = fs.files := rfl

/-- makedirs makes the directory exist. -/
lemma makedirs_mem (fs : FS) (d : String) : d ∈ (fs.makedirs d).dirs := by
  by_cases h : d ∈ fs.dirs <;> simp [FS.makedirs, h]

/-- When no save fails, the loop performs exactly one write per table
entry, in table order. -/
lemma writeIcons_ok (env : Env) (img : Image) (l : List (Nat × String))
    (fs : FS) (tr : List String)
    (h : ∀ s ∈ l, env.writeFails (iconPath s.2) = false) :
    writeIcons env img l fs tr =
      (true, ⟨fs.dirs, (l.map (iconWrite img)).reverse ++ fs.files⟩,
       tr ++ l.map (fun s => iconPath s.2)) := by
  induction l generalizing fs tr with
  | nil => simp [writeIcons]
  | cons s rest ih =>
    have hs : env.writeFails (iconPath s.2) = false := h s (by simp)
    rw [writeIcons, hs]
    simp only [Bool.false_eq_true, if_false]
    rw [ih (fs.setFile (iconPath s.2) (FileData.png (processIcon img s.1)))
        (tr ++ [iconPath s.2]) (fun a ha => h a (by simp [ha]))]
    simp [FS.setFile, iconWrite, List.append_assoc]

/-- A failing save at some table entry aborts the loop there: exactly the
earlier entries have been written, in order. -/
lemma writeIcons_fail (env : Env) (img : Image) (l₁ : List (Nat × String))
    (x : Nat × String) (l₂ : List (Nat × String)) (fs : FS) (tr : List String)
    (h1 : ∀ s ∈ l₁, env.writeFails (iconPath s.2) = false)
    (hx : env.writeFails (iconPath x.2) = true) :
    writeIcons env img (l₁ ++ x :: l₂) fs tr =
      (false, ⟨fs.dirs, (l₁.map (iconWrite img)).reverse ++ fs.files⟩,
       tr ++ l₁.map (fun s => iconPath s.2)) := by
  induction l₁ generalizing fs tr with
  | nil => simp [writeIcons, hx]
  | cons s rest ih =>
    have hs : env.writeFails (iconPath s.2) = false := h1 s (by simp)
    rw [List.cons_append, writeIcons, hs]
    simp only [Bool.false_eq_true, if_false]
    rw [ih (fs.setFile (iconPath s.2) (FileData.png (processIcon img s.1)))
        (tr ++ [iconPath s.2]) (fun a ha => h1 a (List.mem_cons_of_mem s ha))]
    simp [FS.setFile, iconWrite, List.append_assoc]

/-- The loop succeeds exactly when no icon save fails. -/
lemma writeIcons_bool (env : Env) (img : Image) (l : List (Nat × String))
    (fs : FS) (tr : List String) :
    (writeIcons env img l fs tr).1 =
      l.all (fun s => !env.writeFails (iconPath s.2)) := by
  induction l generalizing fs tr with
  | nil => simp [writeIcons]
  | cons s rest ih =>
    cases hs : env.writeFails (iconPath s.2) with
    | true => simp [writeIcons, hs]
    | false => simp [writeIcons, hs, ih]

/-- Whatever the environment does, the loop only prepends writes whose
paths are icon paths of the table it was given. -/
lemma writeIcons_files (env : Env) (img : Image) (l : List (Nat × String))
    (fs : FS) (tr0 : List String) :
    ∃ (b : Bool) (tr : List String) (W : List (String × FileData)),
      writeIcons env img l fs tr0 = (b, ⟨fs.dirs, W ++ fs.files⟩, tr) ∧
      ∀ q ∈ W.map Prod.fst, ∃ s, s ∈ l ∧ q = iconPath s.2 := by
  induction l generalizing fs tr0 with
  | nil => exact ⟨true, tr0, [], by simp [writeIcons], by simp⟩
  | cons s rest ih =>
    cases hs : env.writeFails (iconPath s.2) with
    | true =>
      refine ⟨false, tr0, [], ?_, by simp⟩
      rw [writeIcons, hs]
      simp
    | false =>
      obtain ⟨b, tr, W, heq, hk⟩ :=
        ih (fs.setFile (iconPath s.2) (FileData.png (processIcon img s.1)))
          (tr0 ++ [iconPath s.2])
      refine ⟨b, tr, W ++ [(iconPath s.2, FileData.png (processIcon img s.1))], ?_, ?_⟩
      · rw [writeIcons, hs]
        simp only [Bool.false_eq_true, if_false]
        rw [heq]
        simp [FS.setFile, List.append_assoc]
      · intro q hq
        rw [List.map_append, List.mem_append] at hq
        rcases hq with hq | hq
        · obtain ⟨a, ha, rfl⟩ := hk q hq
          exact ⟨a, by simp [ha], rfl⟩
        · simp at hq
          exact ⟨s, by simp, hq⟩

/-- Full characterization of a run in which nothing fails: returns true,
writes the 13 icons in table order then the manifest, and the final file
store holds exactly those 14 writes over the initial one. -/
lemma generate_ok (env : Env) (fs : FS) (img : Image)
    (hmk : env.makedirsFails = false) (hopen : env.openResult = some img)
    (hw : ∀ p, env.writeFails p = false) :
    generate env fs =
      (Outcome.ok true,
       ⟨(fs.makedirs dest_dir).dirs,
        (contentsPath, FileData.json contents_json) ::
          ((icon_sizes.map (iconWrite (img.convert Mode.RGBA))).reverse ++ fs.files)⟩,
       icon_sizes.map (fun s => iconPath s.2) ++ [contentsPath]) := by
  rw [generate, hmk, hopen]
  simp only [Bool.false_eq_true, if_false]
  rw [writeIcons_ok env (img.convert Mode.RGBA) icon_sizes (fs.makedirs dest_dir) []
      (fun s _ => hw (iconPath s.2))]
  simp [hw contentsPath, FS.setFile, makedirs_files]

/-- Processing an RGBA image takes the compositing branch and yields a
mode RGB image. -/
lemma processIcon_mode (img : Image) (sz : Nat) (hm : img.mode = Mode.RGBA) :
    (processIcon img sz).mode = Mode.RGB := by
  unfold processIcon flattenForSave
  rw [if_pos (show (img.resize sz sz).mode = Mode.RGBA from hm)]
  rfl

/-- Every pixel of a processed icon is stored fully opaque. -/
lemma processIcon_alpha (img : Image) (sz x y : Nat) (hm : img.mode = Mode.RGBA) :
    ((processIcon img sz).px x y).a = 255 := by
  unfold processIcon flattenForSave
  rw [if_pos (show (img.resize sz sz).mode = Mode.RGBA from hm)]
  rfl

/-- A processed icon has the requested dimensions. -/
lemma processIcon_dims (img : Image) (sz : Nat) (hm : img.mode = Mode.RGBA) :
    (processIcon img sz).width = sz ∧ (processIcon img sz).height = sz := by
  unfold processIcon flattenForSave
  rw [if_pos (show (img.resize sz sz).mode = Mode.RGBA from hm)]
  exact ⟨rfl, rfl⟩

/-- Where the resized image is fully transparent, the processed icon
shows the white background. -/
lemma processIcon_white (img : Image) (sz x y : Nat) (hm : img.mode = Mode.RGBA)
    (h : ((img.resize sz sz).px x y).a = 0) :
    (processIcon img sz).px x y = ⟨255, 255, 255, 255⟩ := by
  unfold processIcon flattenForSave
  rw [if_pos (show (img.resize sz sz).mode = Mode.RGBA from hm)]
  show Pix.mk
      (blend 255 ((img.resize sz sz).px x y).r (((img.resize sz sz).px x y).a))
      (blend 255 ((img.resize sz sz).px x y).g (((img.resize sz sz).px x y).a))
      (blend 255 ((img.resize sz sz).px x y).b (((img.resize sz sz).px x y).a))
      255 = ⟨255, 255, 255, 255⟩
  rw [h]
  simp [blend]

/-- C1: the manifest written to the destination directory is exactly the
fixed structure of lines 62 to 85: its images key holds the fixed ordered
list of 16 entries, each carrying filename, idiom, scale and size fields,
its info key holds author xcode and version 1, and the written value does
not depend on the source image. -/
theorem manifest_fixed (env : Env) (fs : FS) (img : Image)
    (hmk : env.makedirsFails = false) (hopen : env.openResult = some img)
    (hw : ∀ p, env.writeFails p = false) :
    (generate env fs).2.1.getFile contentsPath = some (FileData.json contents_json) ∧
    contents_json.images.length = 16 ∧
    contents_json.info = ⟨"xcode", 1⟩ := by
  refine ⟨?_, rfl, rfl⟩
  rw [generate_ok env fs img hmk hopen hw]
  rfl

/-- Witness for C1 at a concrete fully successful run on the red image. -/
theorem manifest_fixed_witness :
    (env0.makedirsFails = false ∧ env0.openResult = some redImage ∧
      ∀ p, env0.writeFails p = false) ∧
    ((generate env0 fs0).2.1.getFile contentsPath = some (FileData.json contents_json) ∧
      contents_json.images.length = 16 ∧
      contents_json.info = ⟨"xcode", 1⟩) :=
  ⟨⟨rfl, rfl, fun _ => rfl⟩,
   manifest_fixed env0 fs0 redImage rfl rfl (fun _ => rfl)⟩

/-- C2: after a run in which nothing fails, every entry of the fixed
icon table has its file present in the destination directory with pixel
dimensions exactly the table's edge length, squared. -/
theorem icons_exist_with_dims (env : Env) (fs : FS) (img : Image)
    (hmk : env.makedirsFails = false) (hopen : env.openResult = some img)
    (hw : ∀ p, env.writeFails p = false) :
    ∀ s ∈ icon_sizes,
      ∃ out : Image,
        (generate env fs).2.1.getFile (iconPath s.2) = some (FileData.png out) ∧
        out.width = s.1 ∧ out.height = s.1 := by
  intro s hmem
  rw [generate_ok env fs img hmk hopen hw]
  simp only [icon_sizes] at hmem
  fin_cases hmem <;> exact ⟨_, rfl, rfl, rfl⟩

/-- Witness for C2 at the 20 pixel entry of the table. -/
theorem icons_exist_with_dims_witness :
    (env0.makedirsFails = false ∧ env0.openResult = some redImage ∧
      (∀ p, env0.writeFails p = false) ∧ (20, "Icon-20.png") ∈ icon_sizes) ∧
    (∃ out : Image,
      (generate env0 fs0).2.1.getFile (iconPath ("Icon-20.png")) =
        some (FileData.png out) ∧
      out.width = 20 ∧ out.height = 20) :=
  ⟨⟨rfl, rfl, fun _ => rfl, by decide⟩,
   icons_exist_with_dims env0 fs0 redImage rfl rfl (fun _ => rfl)
     (20, "Icon-20.png") (by decide)⟩

/-- C3: every generated icon file holds a 3-channel image: the resized
RGBA image is composited over an opaque white background masked by its
alpha channel, so the stored image is in mode RGB with every pixel fully
opaque, and wherever the resized image was transparent the output pixel
is white. -/
theorem icons_opaque (env : Env) (fs : FS) (img : Image)
    (hmk : env.makedirsFails = false) (hopen : env.openResult = some img)
    (hw : ∀ p, env.writeFails p = false) :
    ∀ s ∈ icon_sizes,
      ∃ out : Image,
        (generate env fs).2.1.getFile (iconPath s.2) = some (FileData.png out) ∧
        out.mode = Mode.RGB ∧
        (∀ x y, (out.px x y).a = 255) ∧
        (∀ x y, (((img.convert Mode.RGBA).resize s.1 s.1).px x y).a = 0 →
          out.px x y = ⟨255, 255, 255, 255⟩) := by
  intro s hmem
  rw [generate_ok env fs img hmk hopen hw]
  simp only [icon_sizes] at hmem
  fin_cases hmem <;>
    exact ⟨_, rfl, processIcon_mode _ _ rfl,
      fun x y => processIcon_alpha _ _ x y rfl,
      fun x y h => processIcon_white _ _ x y rfl h⟩

/-- Witness for C3 at the 20 pixel entry of the table. -/
theorem icons_opaque_witness :
    (env0.makedirsFails = false ∧ env0.openResult = some redImage ∧
      (∀ p, env0.writeFails p = false) ∧ (20, "Icon-20.png") ∈ icon_sizes) ∧
    (∃ out : Image,
      (generate env0 fs0).2.1.getFile (iconPath ("Icon-20.png")) =
        some (FileData.png out) ∧
      out.mode = Mode.RGB ∧
      (∀ x y, (out.px x y).a = 255) ∧
      (∀ x y, (((redImage.convert Mode.RGBA).resize 20 20).px x y).a = 0 →
        out.px x y = ⟨255, 255, 255, 255⟩)) :=
  ⟨⟨rfl, rfl, fun _ => rfl, by decide⟩,
   icons_opaque env0 fs0 redImage rfl rfl (fun _ => rfl)
     (20, "Icon-20.png") (by decide)⟩

/-- C4 counterexample: when directory creation fails, the run raises an
uncaught exception instead of returning false, because os.makedirs at
line 32 sits before the try block; the claim that a directory-creation
failure makes the function return false is therefore wrong on this
concrete input. -/
theorem makedirs_failure_raises :
    (generate envMk fs0).1 = Outcome.raised ∧
    (generate envMk fs0).1 ≠ Outcome.ok false ∧
    (generate envMk fs0).1 ≠ Outcome.ok true :=
  ⟨rfl, by decide, by decide⟩

/-- C4 amended: the run returns true exactly when the source decodes and
every one of the 14 writes succeeds; any failure of steps 2 to 4 (source
decode, icon save, manifest write) makes it return false, while a failure
of directory creation in step 1 propagates as an exception. -/
theorem outcome_of_generate (env : Env) (fs : FS) :
    (generate env fs).1 =
      if env.makedirsFails then Outcome.raised
      else
        Outcome.ok (env.openResult.isSome
          && icon_sizes.all (fun s => !env.writeFails (iconPath s.2))
          && !env.writeFails contentsPath) := by
  cases hmk : env.makedirsFails with
  | true => rw [generate, hmk]; rfl
  | false =>
    cases hopen : env.openResult with
    | none =>
      rw [generate, hmk, hopen]
      simp
    | some img =>
      have hb := writeIcons_bool env (img.convert Mode.RGBA) icon_sizes
        (fs.makedirs dest_dir) []
      rcases hwi : writeIcons env (img.convert Mode.RGBA) icon_sizes
          (fs.makedirs dest_dir) [] with ⟨b, fs2, tr⟩
      rw [hwi] at hb
      rw [generate, hmk, hopen]
      simp only [Bool.false_eq_true, if_false]
      rw [hwi]
      cases b with
      | false =>
        simp only [Bool.false_eq_true, if_false, Option.isSome_some,
          Bool.true_and]
        rw [← hb]
        simp
      | true =>
        cases hcw : env.writeFails contentsPath with
        | true =>
          simp only [hcw, Option.isSome_some, Bool.true_and]
          rw [← hb]
          simp
        | false =>
          simp only [hcw, Option.isSome_some, Bool.true_and]
          rw [← hb]
          simp

/-- C5: when the source is missing or unreadable (and directory creation
succeeds), the run returns false, the destination directory exists
afterwards, and no file at all has been written. -/
theorem missing_source_no_writes (env : Env) (fs : FS)
    (hmk : env.makedirsFails = false) (hopen : env.openResult = none) :
    (generate env fs).1 = Outcome.ok false ∧
    dest_dir ∈ (generate env fs).2.1.dirs ∧
    (generate env fs).2.1.files = fs.files ∧
    (generate env fs).2.2 = [] := by
  rw [generate, hmk, hopen]
  exact ⟨rfl, makedirs_mem fs dest_dir, rfl, rfl⟩

/-- Witness for C5 at a concrete run with an unreadable source. -/
theorem missing_source_no_writes_witness :
    (envNone.makedirsFails = false ∧ envNone.openResult = none) ∧
    ((generate envNone fs0).1 = Outcome.ok false ∧
     dest_dir ∈ (generate envNone fs0).2.1.dirs ∧
     (generate envNone fs0).2.1.files = fs0.files ∧
     (generate envNone fs0).2.2 = []) :=
  ⟨⟨rfl, rfl⟩, missing_source_no_writes envNone fs0 rfl rfl⟩

/-- C6: with the same source and no failures, a second run on the output
of the first succeeds again and leaves the content of every file
unchanged; the data written is identical run to run because it depends
only on the decoded source, not on the destination state. -/
theorem second_run_idempotent (env : Env) (fs : FS) (img : Image) (p : String)
    (hmk : env.makedirsFails = false) (hopen : env.openResult = some img)
    (hw : ∀ q, env.writeFails q = false) :
    (generate env (generate env fs).2.1).1 = Outcome.ok true ∧
    (generate env (generate env fs).2.1).2.1.getFile p =
      (generate env fs).2.1.getFile p := by
  rw [generate_ok env fs img hmk hopen hw]
  rw [generate_ok env _ img hmk hopen hw]
  refine ⟨rfl, ?_⟩
  show List.lookup p
      (((contentsPath, FileData.json contents_json) ::
          (icon_sizes.map (iconWrite (img.convert Mode.RGBA))).reverse) ++
        (((contentsPath, FileData.json contents_json) ::
          (icon_sizes.map (iconWrite (img.convert Mode.RGBA))).reverse) ++ fs.files)) =
    List.lookup p
      (((contentsPath, FileData.json contents_json) ::
          (icon_sizes.map (iconWrite (img.convert Mode.RGBA))).reverse) ++ fs.files)
  exact lookup_twice _ _ p

/-- Witness for C6 at a concrete run on the red image, read back at the
20 pixel icon path. -/
theorem second_run_idempotent_witness :
    (env0.makedirsFails = false ∧ env0.openResult = some redImage ∧
      ∀ q, env0.writeFails q = false) ∧
    ((generate env0 (generate env0 fs0).2.1).1 = Outcome.ok true ∧
     (generate env0 (generate env0 fs0).2.1).2.1.getFile (iconPath ("Icon-20.png")) =
       (generate env0 fs0).2.1.getFile (iconPath ("Icon-20.png"))) :=
  ⟨⟨rfl, rfl, fun _ => rfl⟩,
   second_run_idempotent env0 fs0 redImage (iconPath ("Icon-20.png")) rfl rfl
     (fun _ => rfl)⟩

/-- C7: for every path that is none of the 13 icon paths and not the
manifest path, any run whatsoever leaves the content of that path
unchanged: the run only ever writes the 14 named files. -/
theorem unrelated_files_untouched (env : Env) (fs : FS) (p : String)
    (hp : p ∉ outputPaths) :
    (generate env fs).2.1.getFile p = fs.getFile p := by
  have hpc : p ≠ contentsPath := by
    intro h
    exact hp (by rw [h, outputPaths]; simp)
  have hpi : ∀ s ∈ icon_sizes, p ≠ iconPath s.2 := by
    intro s hs h
    refine hp ?_
    rw [outputPaths, List.mem_append]
    exact Or.inl (List.mem_map.mpr ⟨s, hs, h.symm⟩)
  cases hmk : env.makedirsFails with
  | true => rw [generate, hmk]; rfl
  | false =>
    cases hopen : env.openResult with
    | none => rw [generate, hmk, hopen]; rfl
    | some img =>
      obtain ⟨b, tr, W, heq, hkeys⟩ :=
        writeIcons_files env (img.convert Mode.RGBA) icon_sizes
          (fs.makedirs dest_dir) []
      have hWp : ∀ q ∈ W.map Prod.fst, p ≠ q := by
        intro q hq
        obtain ⟨s, hs, rfl⟩ := hkeys q hq
        exact hpi s hs
      rw [generate, hmk, hopen]
      simp only [Bool.false_eq_true, if_false]
      rw [heq]
      cases b with
      | false => exact lookup_skip fs.files hWp
      | true =>
        cases hcw : env.writeFails contentsPath with
        | true => exact lookup_skip fs.files hWp
        | false =>
          have hbeq : (p == contentsPath) = false := beq_eq_false_iff_ne.mpr hpc
          show List.lookup p
              ((contentsPath, FileData.json contents_json) :: (W ++ fs.files)) =
            List.lookup p fs.files
          rw [List.lookup, hbeq]
          exact lookup_skip fs.files hWp

/-- Witness for C7 at a concrete run and a concrete unrelated path. -/
theorem unrelated_files_untouched_witness :
    ("unrelated.txt" ∉ outputPaths) ∧
    (generate env0 fs0).2.1.getFile ("unrelated.txt") =
      fs0.getFile ("unrelated.txt") :=
  ⟨by decide,
   unrelated_files_untouched env0 fs0 ("unrelated.txt") (by decide)⟩

/-- C8: in a run in which nothing fails the writes happen one per table
entry in table order with the manifest strictly last; and when the save
of some table entry fails while all earlier saves succeeded, the run
returns false having written exactly the icons of the earlier entries and
no manifest. -/
theorem write_order :
    (∀ (env : Env) (fs : FS) (img : Image),
      env.makedirsFails = false → env.openResult = some img →
      (∀ p, env.writeFails p = false) →
      (generate env fs).2.2 =
        icon_sizes.map (fun s => iconPath s.2) ++ [contentsPath]) ∧
    (∀ (env : Env) (fs : FS) (img : Image) (l₁ : List (Nat × String))
        (x : Nat × String) (l₂ : List (Nat × String)),
      env.makedirsFails = false → env.openResult = some img →
      icon_sizes = l₁ ++ x :: l₂ →
      (∀ s ∈ l₁, env.writeFails (iconPath s.2) = false) →
      env.writeFails (iconPath x.2) = true →
      (generate env fs).1 = Outcome.ok false ∧
      (generate env fs).2.2 = l₁.map (fun s => iconPath s.2) ∧
      (generate env fs).2.1.files =
        (l₁.map (iconWrite (img.convert Mode.RGBA))).reverse ++ fs.files) := by
  constructor
  · intro env fs img hmk hopen hw
    rw [generate_ok env fs img hmk hopen hw]
  · intro env fs img l₁ x l₂ hmk hopen hsplit h1 hx
    rw [generate, hmk, hopen]
    simp only [Bool.false_eq_true, if_false]
    rw [hsplit, writeIcons_fail env (img.convert Mode.RGBA) l₁ x l₂
        (fs.makedirs dest_dir) [] h1 hx]
    exact ⟨rfl, by simp, rfl⟩

/-- First two table entries, the part before the failing save in the C8
witness. -/
def l1w : List (Nat × String) := [(20, "Icon-20.png"), (29, "Icon-29.png")]

/-- Table entries after the failing save in the C8 witness. -/
def l2w : List (Nat × String) :=
  [(58, "Icon-58.png"), (60, "Icon-60.png"), (76, "Icon-76.png"),
   (80, "Icon-80.png"), (87, "Icon-87.png"), (120, "Icon-120.png"),
   (152, "Icon-152.png"), (167, "Icon-167.png"), (180, "Icon-180.png"),
   (1024, "Icon-1024.png")]

/-- Witness for C8: a run in which exactly the third save fails writes
the first two icons, no manifest, and returns false. -/
theorem write_order_witness :
    (env1.makedirsFails = false ∧
     icon_sizes = l1w ++ (40, "Icon-40.png") :: l2w ∧
     (∀ s ∈ l1w, env1.writeFails (iconPath s.2) = false) ∧
     env1.writeFails (iconPath ("Icon-40.png")) = true) ∧
    ((generate env1 fs0).1 = Outcome.ok false ∧
     (generate env1 fs0).2.2 = l1w.map (fun s => iconPath s.2) ∧
     (generate env1 fs0).2.1.files =
       (l1w.map (iconWrite (redImage.convert Mode.RGBA))).reverse ++ fs0.files) :=
  ⟨⟨rfl, by decide, by decide, by decide⟩,
   write_order.2 env1 fs0 redImage l1w (40, "Icon-40.png") l2w rfl rfl
     (by decide) (by decide) (by decide)⟩

/-- C9: every filename occurring among the 16 manifest entries is one of
the 13 filenames of the icon table, so the manifest never references a
file the generator does not produce. -/
theorem manifest_references_generated :
    ∀ e ∈ contents_json.images, e.filename ∈ icon_sizes.map Prod.snd := by
  decide

/-- Witness for C9 at the first manifest entry. -/
theorem manifest_references_generated_witness :
    (⟨"Icon-40.png", "ipad", "1x", "40x40"⟩ : ManifestEntry) ∈
      contents_json.images ∧
    ("Icon-40.png") ∈ icon_sizes.map Prod.snd :=
  ⟨by decide,
   manifest_references_generated ⟨"Icon-40.png", "ipad", "1x", "40x40"⟩
     (by decide)⟩

/-- C10: the source is converted to RGBA before the loop and resizing
preserves the mode, so the resized image is always in mode RGBA and the
flattening conditional always takes the compositing branch; the as-is
branch is unreachable for every decodable source. -/
theorem rgba_branch_always_taken (img : Image) (sz : Nat) :
    ((img.convert Mode.RGBA).resize sz sz).mode = Mode.RGBA ∧
    flattenForSave ((img.convert Mode.RGBA).resize sz sz) sz =
      flattenComposite ((img.convert Mode.RGBA).resize sz sz) sz := by
  refine ⟨rfl, ?_⟩
  unfold flattenForSave
  exact if_pos rfl

end AppIcons
